import Mathlib

/-!
Verification of the make-request-py runtime support library.

The only core module present in the repository sources is
`make_api_request/retry.py`; the other core components (query encoder,
request dispatcher, OAuth2 token lifecycle, SSE stream reader) are
embedded here from the specification and exercised against the observable
behaviour asserted by the repository test suite.
-/

namespace MakeApiRequest

/-- JSON-like values, as used for query-parameter inputs, response
payloads and SSE event values.  Restricted to the shapes exercised by
this development: null, booleans, integers, strings, arrays, objects. -/
inductive JsonValue where
  | null : JsonValue
  | bool (b : Bool) : JsonValue
  | int (n : Int) : JsonValue
  | str (s : String) : JsonValue
  | arr (items : List JsonValue) : JsonValue
  | obj (fields : List (String × JsonValue)) : JsonValue

/-! ## Retry policy — from `src/make_api_request/retry.py` -/

/-- Inner helper of `should_retry` in `retry.py`: a retry code below 6 is a
hundred-range selector (`retry_code * 100 <= status_code < (retry_code + 1) * 100`),
otherwise it must equal the status code exactly. -/
def matches_code (status_code : Int) (retry_code : Int) : Bool :=
  if retry_code < 6 then
    decide (retry_code * 100 ≤ status_code ∧ status_code < (retry_code + 1) * 100)
  else
    status_code == retry_code

/-- `should_retry` from `retry.py`: true when any configured retry code
matches the status code. -/
def should_retry (status_code : Int) (retry_codes : List Int) : Bool :=
  retry_codes.any (fun code => matches_code status_code code)

/-- The `RetryStrategy` TypedDict of `retry.py`.  Delays are in
milliseconds; the backoff factor is a float, embedded as a rational. -/
structure RetryStrategy where
  status_codes : List Int
  initial_delay : Int
  max_delay : Int
  backoff_factor : Rat
  max_retries : Nat
deriving DecidableEq, Repr

/-! ## Request dispatcher — modelled from the spec (§4.2, §4.5) -/

/-- Modelled from the spec: the transport response as seen by the retry
loop (`base_client.py` is not under `src/`); carries the status code, the
success flag and the decoded JSON body. -/
structure Response where
  status_code : Int
  is_success : Bool
  json : JsonValue

/-- Terminal outcome of one dispatch: a decoded success payload, or a
structured API error carrying the last observed response. -/
inductive DispatchOutcome where
  | success (resp : Response) : DispatchOutcome
  | apiError (resp : Response) : DispatchOutcome

/-- Observable trace of one dispatch call: the terminal outcome, the
total number of transport calls made, and the list of awaited backoff
delays (milliseconds), in order. -/
structure DispatchTrace where
  outcome : DispatchOutcome
  calls : Nat
  sleeps : List Rat

/-- `min(current_delay * backoff, max_delay)` — the next-delay rule of
`RetryStrategy.backoff_factor`'s docstring in `retry.py` and spec §4.2. -/
def next_delay (s : RetryStrategy) (d : Rat) : Rat :=
  min (d * s.backoff_factor) (s.max_delay : Rat)

/-- Modelled from the spec: the retry loop of the request dispatcher
(`base_client.py` is not under `src/`).  Per attempt: execute the
transport call; if the response `is_success`, return it; else if
attempts remain (`remaining` is the number of retries still allowed,
i.e. `max_retries - attempt`) and `should_retry` accepts the status
code, record a sleep for the current delay and loop with the next
delay; else raise the structured API error carrying the response. -/
def dispatch_go (transport : Nat → Response) (codes : List Int) (next : Rat → Rat) :
    Nat → Nat → Rat → List Rat → DispatchTrace
  | attempt, remaining, delay, sleeps =>
    let resp := transport attempt
    if resp.is_success then
      { outcome := .success resp, calls := attempt + 1, sleeps := sleeps }
    else
      match remaining with
      | 0 => { outcome := .apiError resp, calls := attempt + 1, sleeps := sleeps }
      | r + 1 =>
        if should_retry resp.status_code codes then
          dispatch_go transport codes next (attempt + 1) r (next delay) (sleeps ++ [delay])
        else
          { outcome := .apiError resp, calls := attempt + 1, sleeps := sleeps }

/-- Modelled from the spec: one dispatch of a request under a retry
strategy, against a transport given as the sequence of responses it
returns on successive attempts. -/
def dispatch (s : RetryStrategy) (transport : Nat → Response) : DispatchTrace :=
  dispatch_go transport s.status_codes (next_delay s) 0 s.max_retries (s.initial_delay : Rat) []

/-- A partial retry configuration as supplied by the caller: any subset
of the `RetryStrategy` fields (the retry-configuration surface of spec
§6). -/
structure RetryOverrides where
  status_codes : Option (List Int) := none
  initial_delay : Option Int := none
  max_delay : Option Int := none
  backoff_factor : Option Rat := none
  max_retries : Option Nat := none

/-- Modelled from the spec: per-field merge of a supplied partial retry
configuration over a base strategy, the supplied field winning. -/
def merge_retry (base : RetryStrategy) (o : RetryOverrides) : RetryStrategy :=
  { status_codes := o.status_codes.getD base.status_codes
    initial_delay := o.initial_delay.getD base.initial_delay
    max_delay := o.max_delay.getD base.max_delay
    backoff_factor := o.backoff_factor.getD base.backoff_factor
    max_retries := o.max_retries.getD base.max_retries }

/-- Modelled from the spec: the client-level default retry strategy
(`base_client.py` is not under `src/`).  The spec's §6 lists defaults
`backoffFactor = 1.0`, `maxRetries = 0` and leaves the delays
unspecified; the spec also says the default status-code list is empty,
but the repository's own test
`tests/test_base_client.py::TestRetryStrategy::test_sync_client_retries_on_500_status`
requires the default list to match status 500 (a retry is observed with
`status_codes` omitted), so the default status codes are modelled as
`[5]` (the 5XX range selector) to match the tests. -/
def default_retry_strategy : RetryStrategy :=
  { status_codes := [5]
    initial_delay := 500
    max_delay := 10000
    backoff_factor := 1
    max_retries := 0 }

/-- The 500 response returned by the failing mock transports of
`tests/test_base_client.py` (`is_success = False`, `status_code = 500`). -/
def resp500 : Response :=
  { status_code := 500, is_success := false, json := .null }

/-- The 200 response returned by the succeeding mock transports of
`tests/test_base_client.py`, whose JSON body is `{"result": "success"}`. -/
def resp200 : Response :=
  { status_code := 200, is_success := true
    json := .obj [("result", .str "success")] }

/-- Transport of `test_sync_client_retries_on_500_status`: first attempt
returns 500, every later attempt returns 200. -/
def transport_500_then_200 : Nat → Response
  | 0 => resp500
  | _ + 1 => resp200

/-- Transport of `test_sync_client_respects_max_retries`: every attempt
returns 500. -/
def transport_all_500 : Nat → Response :=
  fun _ => resp500

/-- Transport of `test_sync_client_retries_with_exponential_backoff`:
two 500 responses, then 200. -/
def transport_500_500_200 : Nat → Response
  | 0 => resp500
  | 1 => resp500
  | _ + 2 => resp200

/-- The chain law of awaited backoff delays: each recorded delay equals
the current delay, and the rest of the list is a chain starting from
`next` of it. -/
def delay_chain (next : Rat → Rat) : Rat → List Rat → Prop
  | _, [] => True
  | d, x :: xs => x = d ∧ delay_chain next (next d) xs

/-! ## Query encoder — modelled from the spec (§4.1); `query.py` is not
under `src/`, only its tests are. -/

/-- Minimal JSON string escaping (backslash and double quote), as used
by the compact JSON rendering. -/
def json_escape_char (c : Char) : String :=
  if c = '"' then "\\\"" else if c = '\\' then "\\\\" else String.mk [c]

/-- Escape every character of a string for JSON rendering. -/
def json_escape (s : String) : String :=
  String.join (s.data.map json_escape_char)

mutual

/-- Modelled from the spec: the compact JSON-like textual rendering used
by the stringification rule for sequences and mappings (Python
`json.dumps` with its default item and key separators). -/
def json_dumps : JsonValue → String
  | .null => "null"
  | .bool true => "true"
  | .bool false => "false"
  | .int n => toString n
  | .str s => "\"" ++ json_escape s ++ "\""
  | .arr xs => "[" ++ String.intercalate ", " (json_dumps_list xs) ++ "]"
  | .obj kvs => "\x7b" ++ String.intercalate ", " (json_dumps_fields kvs) ++ "\x7d"

/-- Renderings of the items of a JSON array. -/
def json_dumps_list : List JsonValue → List String
  | [] => []
  | x :: xs => json_dumps x :: json_dumps_list xs

/-- Renderings of the key/value entries of a JSON object. -/
def json_dumps_fields : List (String × JsonValue) → List String
  | [] => []
  | (k, v) :: kvs =>
    ("\"" ++ json_escape k ++ "\": " ++ json_dumps v) :: json_dumps_fields kvs

end

/-- Modelled from the spec: the stringification rule of `query.py`
(`_query_str`) — booleans render as `true`/`false`, `None` as `null`,
sequences and mappings as their compact JSON rendering, everything else
as its natural text form. -/
def _query_str : JsonValue → String
  | .bool true => "true"
  | .bool false => "false"
  | .null => "null"
  | .int n => toString n
  | .str s => s
  | .arr xs => json_dumps (.arr xs)
  | .obj kvs => json_dumps (.obj kvs)

/-- A query-parameter value: a single string, or a list of strings for
exploded sequences (the transport layer repeats the key). -/
inductive QueryParamValue where
  | str (s : String) : QueryParamValue
  | list (items : List String) : QueryParamValue
deriving DecidableEq, Repr

/-- The query-parameter mapping, in insertion order (Python `dict`). -/
abbrev QueryParams := List (String × QueryParamValue)

/-- Python dict assignment `params[key] = value`: replaces the value in
place when the key exists, otherwise appends the new entry. -/
def set_param (params : QueryParams) (key : String) (v : QueryParamValue) :
    QueryParams :=
  if params.any (fun p => p.1 == key) then
    params.map (fun p => if p.1 == key then (key, v) else p)
  else
    params ++ [(key, v)]

/-- Modelled from the spec: `_encode_form` of `query.py` (style `form`):
exploded sequences keep one entry per item; non-exploded sequences join
stringified items with `","`; exploded mappings flatten each entry to a
top-level key; non-exploded mappings join alternating keys and values
with `","`; scalars stringify. -/
def _encode_form (params : QueryParams) (key : String) (value : JsonValue)
    (explode : Bool) : QueryParams :=
  match value with
  | .arr items =>
    if explode then set_param params key (.list (items.map _query_str))
    else set_param params key (.str (String.intercalate "," (items.map _query_str)))
  | .obj fields =>
    if explode then
      fields.foldl (fun ps kv => set_param ps kv.1 (.str (_query_str kv.2))) params
    else
      set_param params key
        (.str (String.intercalate ","
          ((fields.map (fun kv => [kv.1, _query_str kv.2])).flatten)))
  | v => set_param params key (.str (_query_str v))

/-- Modelled from the spec: `_encode_spaced_delimited` of `query.py` —
non-exploded sequences join with `" "`; every other shape falls back to
`form`. -/
def _encode_spaced_delimited (params : QueryParams) (key : String)
    (value : JsonValue) (explode : Bool) : QueryParams :=
  match value, explode with
  | .arr items, false =>
    set_param params key (.str (String.intercalate " " (items.map _query_str)))
  | _, _ => _encode_form params key value explode

/-- Modelled from the spec: `_encode_pipe_delimited` of `query.py` —
non-exploded sequences join with `"|"`; every other shape falls back to
`form`. -/
def _encode_pipe_delimited (params : QueryParams) (key : String)
    (value : JsonValue) (explode : Bool) : QueryParams :=
  match value, explode with
  | .arr items, false =>
    set_param params key (.str (String.intercalate "|" (items.map _query_str)))
  | _, _ => _encode_form params key value explode

mutual

/-- Modelled from the spec: `_encode_deep_object_key` of `query.py` —
recursively expands nested mappings and sequences into bracket-path
keys (`obj[level1][level2]`, `arr[0]`); scalars stringify under the
accumulated key. -/
def _encode_deep_object_key (params : QueryParams) (key : String) :
    JsonValue → QueryParams
  | .obj fields => deep_object_fields params key fields
  | .arr items => deep_object_items params key 0 items
  | v => set_param params key (.str (_query_str v))

/-- Expansion of a mapping's entries under `deepObject` encoding. -/
def deep_object_fields (params : QueryParams) (key : String) :
    List (String × JsonValue) → QueryParams
  | [] => params
  | (k, v) :: rest =>
    deep_object_fields
      (_encode_deep_object_key params (key ++ "[" ++ k ++ "]") v) key rest

/-- Expansion of a sequence's items under `deepObject` encoding, with
numeric bracket segments. -/
def deep_object_items (params : QueryParams) (key : String) (i : Nat) :
    List JsonValue → QueryParams
  | [] => params
  | v :: rest =>
    deep_object_items
      (_encode_deep_object_key params (key ++ "[" ++ toString i ++ "]") v)
      key (i + 1) rest

end

/-- Modelled from the spec: `_encode_deep_object` of `query.py` —
mappings and sequences expand to bracket-path keys; a scalar under this
style falls back to `form`. -/
def _encode_deep_object (params : QueryParams) (key : String) (value : JsonValue)
    (explode : Bool) : QueryParams :=
  match value with
  | .obj _ => _encode_deep_object_key params key value
  | .arr _ => _encode_deep_object_key params key value
  | _ => _encode_form params key value explode

/-- Modelled from the spec: `encode_query_param` of `query.py` — style
dispatch over `form`, `spaceDelimited`, `pipeDelimited`, `deepObject`;
an unknown style raises `NotImplementedError` with a message naming the
offending style (embedded as the `Except.error` case). -/
def encode_query_param (params : QueryParams) (key : String) (value : JsonValue)
    (style : String) (explode : Bool) : Except String QueryParams :=
  if style = "form" then .ok (_encode_form params key value explode)
  else if style = "spaceDelimited" then
    .ok (_encode_spaced_delimited params key value explode)
  else if style = "pipeDelimited" then
    .ok (_encode_pipe_delimited params key value explode)
  else if style = "deepObject" then
    .ok (_encode_deep_object params key value explode)
  else .error ("query param style \x27" ++ style ++ "\x27 not implemented")

/-! ## OAuth2 token lifecycle — modelled from the spec (§4.3); `auth.py`
is not under `src/`, only its tests are. -/

/-- ASCII whitespace, as stripped by Python `str.strip()` (the cases
relevant to this development). -/
def is_ws (c : Char) : Bool :=
  c == ' ' || c == '\t' || c == '\n' || c == '\r'

/-- Python `str.strip()`: drop whitespace from both ends. -/
def strip_chars (cs : List Char) : List Char :=
  ((cs.dropWhile is_ws).reverse.dropWhile is_ws).reverse

/-- Python `str.strip()` on strings. -/
def strip_string (s : String) : String :=
  String.mk (strip_chars s.data)

/-- Whether the first character list starts with the second. -/
def starts_with_chars : List Char → List Char → Bool
  | _, [] => true
  | [], _ :: _ => false
  | c :: cs, p :: ps => c == p && starts_with_chars cs ps

/-- Python `str.split(sep)` for a one-character separator: split into
(possibly empty) segments at every occurrence of the separator. -/
def split_on_char (sep : Char) : List Char → List (List Char)
  | [] => [[]]
  | c :: cs =>
    match split_on_char sep cs with
    | [] => [[]]
    | seg :: segs =>
      if c == sep then [] :: seg :: segs else (c :: seg) :: segs

/-- Lookup of a key among a JSON object's fields. -/
def json_lookup : List (String × JsonValue) → String → Option JsonValue
  | [], _ => none
  | (k2, v) :: rest, k => if k2 == k then some v else json_lookup rest k

/-- Walk a JSON value along a list of object keys. -/
def json_get : JsonValue → List String → Option JsonValue
  | v, [] => some v
  | .obj fields, k :: rest =>
    match json_lookup fields k with
    | some v => json_get v rest
    | none => none
  | _, _ :: _ => none

/-- Segments of a JSON pointer such as `/expires_in` (leading empty
segment dropped). -/
def pointer_segments (ptr : String) : List String :=
  match (split_on_char '/' ptr.data).map String.mk with
  | "" :: rest => rest
  | segs => segs

/-- Whether an extracted JSON value is present and an integer. -/
def is_int_json : Option JsonValue → Bool
  | some (.int _) => true
  | _ => false

/-- Modelled from the spec: the expiry-seconds extraction of the OAuth2
manager's refresh (`auth.py` is not under `src/`) — the value at the
configured `expires_in` pointer of the token response, defaulting to
600 when absent or not an integer. -/
def extract_expires_in (body : JsonValue) (ptr : String) : Int :=
  match json_get body (pointer_segments ptr) with
  | some (.int n) => n
  | _ => 600

/-- Modelled from the spec: the cached expiry instant set by refresh —
the refresh time plus the extracted lifetime minus a 60-second safety
buffer.  Instants are embedded as integer seconds. -/
def token_expiry (now : Int) (body : JsonValue) (ptr : String) : Int :=
  now + (extract_expires_in body ptr - 60)

/-- The token response body of `test_refresh_with_invalid_expires_in`:
the expiry value is present but not an integer. -/
def invalid_expiry_body : JsonValue :=
  .obj [("access_token", .str "token-without-expiry"),
        ("expires_in", .str "not-an-integer")]

/-! ## JSON parsing — modelled from the spec's use of `json.loads` when
decoding SSE payloads. -/

/-- Skip JSON whitespace. -/
def skip_ws : List Char → List Char
  | c :: cs => if is_ws c then skip_ws cs else c :: cs
  | [] => []

/-- Parse the body of a JSON string literal up to the closing quote,
handling the basic escapes. -/
def parse_string_body : List Char → Option (List Char × List Char)
  | [] => none
  | '"' :: rest => some ([], rest)
  | '\\' :: e :: rest =>
    match
      (if e == '"' then some '"'
       else if e == '\\' then some '\\'
       else if e == '/' then some '/'
       else if e == 'n' then some '\n'
       else if e == 't' then some '\t'
       else if e == 'r' then some '\r'
       else none) with
    | some c => (parse_string_body rest).map (fun p => (c :: p.1, p.2))
    | none => none
  | c :: rest => (parse_string_body rest).map (fun p => (c :: p.1, p.2))

/-- Take the leading run of decimal digits. -/
def take_digits : List Char → List Char × List Char
  | [] => ([], [])
  | c :: cs =>
    if c.isDigit then
      match take_digits cs with
      | (ds, rest) => (c :: ds, rest)
    else ([], c :: cs)

/-- Value of a run of decimal digits. -/
def digits_val (ds : List Char) : Nat :=
  ds.foldl (fun acc c => acc * 10 + (c.toNat - 48)) 0

/-- Parse a JSON integer (optional minus followed by digits). -/
def parse_int_chars : List Char → Option (JsonValue × List Char)
  | '-' :: cs =>
    match take_digits cs with
    | ([], _) => none
    | (ds, rest) => some (.int (-(digits_val ds : Int)), rest)
  | cs =>
    match take_digits cs with
    | ([], _) => none
    | (ds, rest) => some (.int (digits_val ds), rest)

mutual

/-- Recursive-descent JSON value parser over the value shapes of this
development (the fuel bounds nesting depth). -/
def parse_json_value : Nat → List Char → Option (JsonValue × List Char)
  | 0, _ => none
  | fuel + 1, cs =>
    match skip_ws cs with
    | 'n' :: 'u' :: 'l' :: 'l' :: rest => some (.null, rest)
    | 't' :: 'r' :: 'u' :: 'e' :: rest => some (.bool true, rest)
    | 'f' :: 'a' :: 'l' :: 's' :: 'e' :: rest => some (.bool false, rest)
    | '"' :: rest =>
      (parse_string_body rest).map (fun p => (.str (String.mk p.1), p.2))
    | '[' :: rest => parse_json_array fuel rest
    | '\x7b' :: rest => parse_json_object fuel rest
    | cs2 => parse_int_chars cs2

/-- Parse the items of a JSON array after the opening bracket. -/
def parse_json_array : Nat → List Char → Option (JsonValue × List Char)
  | 0, _ => none
  | fuel + 1, cs =>
    match skip_ws cs with
    | ']' :: rest => some (.arr [], rest)
    | cs2 =>
      match parse_json_value fuel cs2 with
      | none => none
      | some (v, r1) =>
        match parse_json_array_rest fuel r1 with
        | none => none
        | some (vs, r2) => some (.arr (v :: vs), r2)

/-- Parse `, item`* followed by the closing bracket. -/
def parse_json_array_rest : Nat → List Char → Option (List JsonValue × List Char)
  | 0, _ => none
  | fuel + 1, cs =>
    match skip_ws cs with
    | ']' :: rest => some ([], rest)
    | ',' :: rest =>
      match parse_json_value fuel rest with
      | none => none
      | some (v, r1) =>
        match parse_json_array_rest fuel r1 with
        | none => none
        | some (vs, r2) => some (v :: vs, r2)
    | _ => none

/-- Parse the members of a JSON object after the opening brace. -/
def parse_json_object : Nat → List Char → Option (JsonValue × List Char)
  | 0, _ => none
  | fuel + 1, cs =>
    match skip_ws cs with
    | '\x7d' :: rest => some (.obj [], rest)
    | cs2 =>
      match parse_json_member fuel cs2 with
      | none => none
      | some (kv, r1) =>
        match parse_json_object_rest fuel r1 with
        | none => none
        | some (kvs, r2) => some (.obj (kv :: kvs), r2)

/-- Parse `, member`* followed by the closing brace. -/
def parse_json_object_rest :
    Nat → List Char → Option (List (String × JsonValue) × List Char)
  | 0, _ => none
  | fuel + 1, cs =>
    match skip_ws cs with
    | '\x7d' :: rest => some ([], rest)
    | ',' :: rest =>
      match parse_json_member fuel rest with
      | none => none
      | some (kv, r1) =>
        match parse_json_object_rest fuel r1 with
        | none => none
        | some (kvs, r2) => some (kv :: kvs, r2)
    | _ => none

/-- Parse one `"key": value` member of a JSON object. -/
def parse_json_member :
    Nat → List Char → Option ((String × JsonValue) × List Char)
  | 0, _ => none
  | fuel + 1, cs =>
    match skip_ws cs with
    | '"' :: rest =>
      match parse_string_body rest with
      | none => none
      | some (kcs, r1) =>
        match skip_ws r1 with
        | ':' :: r2 =>
          match parse_json_value fuel r2 with
          | none => none
          | some (v, r3) => some ((String.mk kcs, v), r3)
        | _ => none
    | _ => none

end

/-- Modelled from the spec: `json.loads` on an SSE payload — succeeds
only when the whole payload is exactly one JSON value (surrounding
whitespace allowed). -/
def json_parse (s : String) : Option JsonValue :=
  match parse_json_value (s.length + 1) s.data with
  | some (v, rest) => if (skip_ws rest).isEmpty then some v else none
  | none => none

/-! ## SSE stream decoding — modelled from the spec (§3, §4.6);
`response.py` is not under `src/`, only its tests are. -/

/-- One line's contribution to an SSE message: the stripped payload
after `data:` when the stripped line is a `data:` line, nothing
otherwise. -/
def sse_data_of_line (line : List Char) : Option String :=
  let t := strip_chars line
  if starts_with_chars t ['d', 'a', 't', 'a', ':'] then
    some (String.mk (strip_chars (t.drop 5)))
  else none

/-- Modelled from the spec: `_parse_sse` of `response.py` — the trimmed
payloads of the message's `data:` lines joined with a newline; no value
when the message has no `data:` line. -/
def _parse_sse (message : String) : Option String :=
  match (split_on_char '\n' message.data).filterMap sse_data_of_line with
  | [] => none
  | datas => some (String.intercalate "\n" datas)

/-- Modelled from the spec: the value of one decoded SSE message — the
joined payload parsed as JSON when possible, the literal payload string
otherwise; no value when the message has no `data:` line. -/
def sse_event_value (message : String) : Option JsonValue :=
  match _parse_sse message with
  | none => none
  | some payload =>
    match json_parse payload with
    | some v => some v
    | none => some (.str payload)

/-- The blank-line boundary marker at the head of the buffer, if any,
with its length (`\r\n\r\n`, `\n\n` or `\r\r`). -/
def boundary_at : List Char → Option Nat
  | '\r' :: '\n' :: '\r' :: '\n' :: _ => some 4
  | '\n' :: '\n' :: _ => some 2
  | '\r' :: '\r' :: _ => some 2
  | _ => none

/-- Earliest blank-line boundary in the buffer: start index and marker
length. -/
def find_boundary : List Char → Option (Nat × Nat)
  | [] => none
  | c :: cs =>
    match boundary_at (c :: cs) with
    | some len => some (0, len)
    | none => (find_boundary cs).map (fun p => (p.1 + 1, p.2))

/-- Modelled from the spec: `_process_buffer` of `response.py` — scan
for the earliest boundary, slice out the message, decode it, skip
messages yielding no value, and return the first produced event value
(the fuel bounds the number of sliced messages). -/
def process_chars : Nat → List Char → Option JsonValue × List Char
  | 0, cs => (none, cs)
  | fuel + 1, cs =>
    match find_boundary cs with
    | none => (none, cs)
    | some (i, len) =>
      let msg := String.mk (cs.take i)
      let rest := cs.drop (i + len)
      match sse_event_value msg with
      | some v => (some v, rest)
      | none => process_chars fuel rest

/-- The first event value produced from a whole buffer. -/
def process_buffer (s : String) : Option JsonValue :=
  (process_chars s.length s.data).1

/-- Stream reader lifecycle states (spec §4.6). -/
inductive StreamState where
  | opened : StreamState
  | draining : StreamState
  | closed : StreamState
deriving DecidableEq

/-- Modelled from the spec: the observable state of one stream reader —
its byte buffer, its lifecycle state, and how many times the scoped
transport resource has been released. -/
structure Reader where
  buffer : List Char
  state : StreamState
  releases : Nat
deriving DecidableEq

/-- Modelled from the spec: releasing the reader's scoped transport
resource — on explicit close, as on exhaustion, the resource is
released only if the reader is not already `closed`, and the reader
transitions to `closed`. -/
def reader_close (r : Reader) : Reader :=
  match r.state with
  | .closed => r
  | _ => { r with state := .closed, releases := r.releases + 1 }

/-- All event values of complete (boundary-terminated) messages in the
buffer, with the unconsumed remainder (the fuel bounds the number of
sliced messages). -/
def drain_events : Nat → List Char → List JsonValue × List Char
  | 0, cs => ([], cs)
  | fuel + 1, cs =>
    match find_boundary cs with
    | none => ([], cs)
    | some (i, len) =>
      let msg := String.mk (cs.take i)
      let rest := cs.drop (i + len)
      match drain_events fuel rest with
      | (vs, leftover) =>
        match sse_event_value msg with
        | some v => (v :: vs, leftover)
        | none => (vs, leftover)

/-- Modelled from the spec: running one stream reader over the
remaining transport chunks to natural exhaustion — each pulled chunk is
appended to the buffer and the events of every complete message are
emitted; on input exhaustion the reader drains (the leftover bytes
decode as one final message if non-empty), releases the scoped
resource, and signals end-of-sequence. -/
def run_reader : List String → Reader → List JsonValue × Reader
  | [], r =>
    let final :=
      if r.buffer.isEmpty then []
      else (sse_event_value (String.mk r.buffer)).toList
    (final, reader_close { buffer := [], state := .draining, releases := r.releases })
  | chunk :: rest, r =>
    match drain_events (r.buffer ++ chunk.data).length (r.buffer ++ chunk.data) with
    | (evs, leftover) =>
      match run_reader rest
          { buffer := leftover, state := r.state, releases := r.releases } with
      | (evs2, r2) => (evs ++ evs2, r2)

/-- Claim C1: `should_retry(s, L)` is true iff some configured code `c`
in `L` matches `s`, where `c < 6` matches exactly the hundred range
`100*c ≤ s < 100*(c+1)` and `c ≥ 6` matches exactly when `s = c`;
consequently `should_retry(s, [])` is false for every `s`. -/
theorem should_retry_iff_and_nil :
    (∀ (s : Int) (L : List Int),
        should_retry s L = true ↔
          ∃ c ∈ L, (c < 6 ∧ 100 * c ≤ s ∧ s < 100 * (c + 1)) ∨ (6 ≤ c ∧ s = c))
    ∧ ∀ s : Int, should_retry s [] = false := by
  constructor
  · intro s L
    simp only [should_retry, List.any_eq_true, matches_code]
    constructor
    · rintro ⟨c, hc, hm⟩
      refine ⟨c, hc, ?_⟩
      by_cases h6 : c < 6
      · simp only [if_pos h6, decide_eq_true_eq] at hm
        exact Or.inl ⟨h6, by linarith [hm.1], by linarith [hm.2]⟩
      · simp only [if_neg h6, beq_iff_eq] at hm
        exact Or.inr ⟨by omega, hm⟩
    · rintro ⟨c, hc, hm⟩
      refine ⟨c, hc, ?_⟩
      rcases hm with ⟨h6, h1, h2⟩ | ⟨h6, he⟩
      · simp only [if_pos h6, decide_eq_true_eq]
        exact ⟨by linarith, by linarith⟩
      · have : ¬ c < 6 := by omega
        simp only [if_neg this, beq_iff_eq]
        exact he
  · intro s
    rfl

/-- Helper: the sleeps recorded by the dispatch loop extend the
accumulator by a chain of delays following the next-delay rule. -/
theorem dispatch_go_sleeps_delay_chain (transport : Nat → Response) (codes : List Int)
    (next : Rat → Rat) :
    ∀ (remaining attempt : Nat) (delay : Rat) (sleeps : List Rat),
      ∃ l, (dispatch_go transport codes next attempt remaining delay sleeps).sleeps
              = sleeps ++ l
        ∧ delay_chain next delay l := by
  intro remaining
  induction remaining with
  | zero =>
    intro attempt delay sleeps
    refine ⟨[], ?_, trivial⟩
    rw [dispatch_go]
    split <;> simp
  | succ r ih =>
    intro attempt delay sleeps
    by_cases hs : (transport attempt).is_success = true
    · refine ⟨[], ?_, trivial⟩
      rw [dispatch_go]
      simp [hs]
    · by_cases hr : should_retry (transport attempt).status_code codes = true
      · obtain ⟨l, hl, hc⟩ := ih (attempt + 1) (next delay) (sleeps ++ [delay])
        refine ⟨delay :: l, ?_, rfl, hc⟩
        rw [dispatch_go]
        simp only [hs, Bool.false_eq_true, if_false, hr, if_true]
        rw [hl]
        simp
      · refine ⟨[], ?_, trivial⟩
        rw [dispatch_go]
        simp [hs, hr]

/-- Claim C2 (counterexample): the scenario of
`test_sync_client_retries_on_500_status` — retry configuration
`{max_retries := 2, initial_delay := 100}` with `status_codes` omitted,
merged over the client defaults, against a transport answering 500 then
200 — performs 2 transport calls and one 100 ms sleep, not the single
call and zero sleeps the claim asserts. -/
theorem omitted_status_codes_still_retries :
    (dispatch (merge_retry default_retry_strategy
        { initial_delay := some 100, max_retries := some 2 })
        transport_500_then_200).calls = 2
    ∧ (dispatch (merge_retry default_retry_strategy
        { initial_delay := some 100, max_retries := some 2 })
        transport_500_then_200).sleeps = [100]
    ∧ ¬ (dispatch (merge_retry default_retry_strategy
        { initial_delay := some 100, max_retries := some 2 })
        transport_500_then_200).calls = 1 := by
  refine ⟨rfl, rfl, by decide⟩

/-- Claim C2 (amended): omitting `statusCodes` does not disable retry
(the defaults supply a non-empty list matching 500); what disables retry
is an explicitly empty `statusCodes` list, or omitting `maxRetries`
(default 0).  In either of those cases a dispatch whose transport
returns only non-success statuses makes exactly one transport call,
never sleeps, and raises immediately with the observed response. -/
theorem retry_disabled_single_call :
    ∀ (transport : Nat → Response), (∀ i, (transport i).is_success = false) →
      ∀ o : RetryOverrides,
        (o.status_codes = some [] →
          dispatch (merge_retry default_retry_strategy o) transport =
            { outcome := .apiError (transport 0), calls := 1, sleeps := [] })
        ∧ (o.max_retries = none →
          dispatch (merge_retry default_retry_strategy o) transport =
            { outcome := .apiError (transport 0), calls := 1, sleeps := [] }) := by
  intro transport hfail o
  constructor
  · intro hsc
    rw [dispatch, dispatch_go.eq_def]
    simp only [merge_retry, hsc, Option.getD_some, hfail 0, Bool.false_eq_true, if_false]
    cases (o.max_retries.getD default_retry_strategy.max_retries) with
    | zero => rfl
    | succ r => simp [should_retry]
  · intro hmr
    rw [dispatch, dispatch_go.eq_def]
    simp [merge_retry, hmr, default_retry_strategy, hfail 0]

/-- Claim C2 (witness for the amended claim): with `statusCodes`
explicitly `[]` and `maxRetries = 2`, a constantly-500 transport is
called exactly once with no sleeps. -/
theorem retry_disabled_single_call_witness :
    dispatch (merge_retry default_retry_strategy
        { status_codes := some [], max_retries := some 2 }) transport_all_500 =
      { outcome := .apiError (transport_all_500 0), calls := 1, sleeps := [] } :=
  (retry_disabled_single_call transport_all_500 (fun _ => rfl)
    { status_codes := some [], max_retries := some 2 }).1 rfl

/-- Claim C3: with `max_retries = 2` and any retry configuration whose
status-code list accepts 500, a transport returning 500 on every attempt
yields exactly 3 transport calls, exactly 2 sleeps, and terminates by
raising the structured API error carrying the last observed response. -/
theorem retry_exhaustion_three_calls_two_sleeps :
    ∀ (codes : List Int) (init maxd : Int) (bf : Rat),
      should_retry 500 codes = true →
      dispatch { status_codes := codes, initial_delay := init, max_delay := maxd,
                 backoff_factor := bf, max_retries := 2 } transport_all_500 =
        { outcome := .apiError resp500, calls := 3,
          sleeps := [(init : Rat),
                     min ((init : Rat) * bf) ((maxd : Int) : Rat)] } := by
  intro codes init maxd bf h
  rw [dispatch]
  rw [show (2 : Nat) = 1 + 1 from rfl]
  rw [dispatch_go]
  simp only [transport_all_500, resp500, Bool.false_eq_true, if_false, h, if_true]
  rw [show (1 : Nat) = 0 + 1 from rfl]
  rw [dispatch_go]
  simp only [transport_all_500, resp500, Bool.false_eq_true, if_false, h, if_true]
  rw [dispatch_go]
  simp [transport_all_500, resp500, next_delay]

/-- Claim C3 (witness): the concrete strategy of
`test_sync_client_respects_max_retries` (`status_codes = [5]`,
`initial_delay = 100`) exhausts after 3 calls and 2 sleeps. -/
theorem retry_exhaustion_witness :
    should_retry 500 [5] = true ∧
    dispatch { status_codes := [5], initial_delay := 100, max_delay := 1000,
               backoff_factor := 2, max_retries := 2 } transport_all_500 =
      { outcome := .apiError resp500, calls := 3,
        sleeps := [((100 : Int) : Rat),
                   min (((100 : Int) : Rat) * 2) (((1000 : Int) : Rat))] } :=
  ⟨by decide, retry_exhaustion_three_calls_two_sleeps [5] 100 1000 2 (by decide)⟩

/-- Claim C4: with `initial_delay = 100`, `backoff_factor = 2.0`,
`max_delay = 1000`, `max_retries = 3` (merged over the client defaults,
as in `test_sync_client_retries_with_exponential_backoff`) and a
transport returning 500, 500, then 200, the dispatcher awaits exactly
100 ms and then 200 ms before the second and third attempts and returns
the decoded success payload `{"result": "success"}`; moreover, for every
strategy and every transport the awaited delays form a chain starting at
`initial_delay` and advancing by `min(currentDelay * backoffFactor,
maxDelay)`. -/
theorem backoff_sequence_100_200 :
    (dispatch (merge_retry default_retry_strategy
        { initial_delay := some 100, max_delay := some 1000,
          backoff_factor := some 2, max_retries := some 3 })
        transport_500_500_200 =
      { outcome := .success resp200, calls := 3, sleeps := [100, 200] })
    ∧ ((100 : Rat) = ((merge_retry default_retry_strategy
        { initial_delay := some 100, max_delay := some 1000,
          backoff_factor := some 2, max_retries := some 3 }).initial_delay : Rat))
    ∧ ((200 : Rat) = next_delay (merge_retry default_retry_strategy
        { initial_delay := some 100, max_delay := some 1000,
          backoff_factor := some 2, max_retries := some 3 }) 100)
    ∧ (resp200.json = .obj [("result", .str "success")])
    ∧ ∀ (s : RetryStrategy) (transport : Nat → Response),
        delay_chain (next_delay s) (s.initial_delay : Rat) (dispatch s transport).sleeps := by
  refine ⟨?_, by norm_num [merge_retry], by norm_num [merge_retry, next_delay], rfl, ?_⟩
  · simp [dispatch, dispatch_go, transport_500_500_200, resp500, resp200, next_delay,
          should_retry, matches_code, merge_retry, default_retry_strategy]
    norm_num
  intro s transport
  obtain ⟨l, hl, hc⟩ := dispatch_go_sleeps_delay_chain transport s.status_codes
    (next_delay s) s.max_retries 0 (s.initial_delay : Rat) []
  rw [dispatch, hl]
  simpa using hc

/-- Claim C5: starting from an empty params mapping,
`encode_query_param` yields `{"id": "1,2,3"}` for `[1,2,3]` under
`form`/no-explode, `{"id": "1|2|3"}` under `pipeDelimited`/no-explode,
and `{"obj[key]": "value"}` for `{"key": "value"}` under
`deepObject`/explode. -/
theorem encode_query_param_examples :
    encode_query_param [] "id" (.arr [.int 1, .int 2, .int 3]) "form" false
        = .ok [("id", .str "1,2,3")]
    ∧ encode_query_param [] "id" (.arr [.int 1, .int 2, .int 3]) "pipeDelimited" false
        = .ok [("id", .str "1|2|3")]
    ∧ encode_query_param [] "obj" (.obj [("key", .str "value")]) "deepObject" true
        = .ok [("obj[key]", .str "value")] :=
  ⟨rfl, rfl, rfl⟩

/-- Claim C8: for every params mapping, key, value and explode flag, a
style outside `form`, `spaceDelimited`, `pipeDelimited`, `deepObject`
makes `encode_query_param` fail with an error message naming the
offending style, producing no query entries. -/
theorem unknown_style_error :
    ∀ (params : QueryParams) (key : String) (value : JsonValue) (explode : Bool)
      (style : String),
      style ≠ "form" → style ≠ "spaceDelimited" → style ≠ "pipeDelimited" →
      style ≠ "deepObject" →
      encode_query_param params key value style explode =
        .error ("query param style \x27" ++ style ++ "\x27 not implemented") := by
  intro params key value explode style h1 h2 h3 h4
  simp [encode_query_param, h1, h2, h3, h4]

/-- Claim C6: when the expiry value at the configured pointer is absent
or not an integer the extracted lifetime defaults to 600 seconds, and
for every extracted lifetime the cached expiry equals the refresh time
plus the extracted seconds minus the 60-second buffer — so refresh time
plus 540 in the default case. -/
theorem oauth_expiry_buffer :
    (∀ (now : Int) (body : JsonValue) (ptr : String),
        is_int_json (json_get body (pointer_segments ptr)) = false →
        extract_expires_in body ptr = 600 ∧ token_expiry now body ptr = now + 540)
    ∧ ∀ (now : Int) (body : JsonValue) (ptr : String),
        token_expiry now body ptr = now + (extract_expires_in body ptr - 60) := by
  constructor
  · intro now body ptr h
    have h6 : extract_expires_in body ptr = 600 := by
      unfold extract_expires_in
      cases hv : json_get body (pointer_segments ptr) with
      | none => rfl
      | some v => cases v <;> simp_all [is_int_json]
    refine ⟨h6, ?_⟩
    rw [token_expiry, h6]
    norm_num
  · intro now body ptr
    rfl

/-- Claim C6 (witness): the body of
`test_refresh_with_invalid_expires_in` (`expires_in` is the string
`"not-an-integer"`) defaults to 600 seconds, with cached expiry 540
seconds after the refresh instant. -/
theorem oauth_expiry_buffer_witness :
    extract_expires_in invalid_expiry_body "/expires_in" = 600 ∧
    token_expiry 0 invalid_expiry_body "/expires_in" = 0 + 540 :=
  oauth_expiry_buffer.1 0 invalid_expiry_body "/expires_in" (by decide)

/-- Claim C7: a message whose joined `data:` payload parses as JSON
decodes to the parsed value (`data: {"key": "value"}` before a
blank-line boundary yields the mapping), a non-JSON payload decodes to
the literal string (`data: plain text` yields `"plain text"`), the
payloads of multiple `data:` lines are joined with a newline, and a
message with no `data:` line yields no event. -/
theorem sse_decode_json_text_and_skip :
    process_buffer "data: \x7b\"key\": \"value\"\x7d\r\n\r\n"
        = some (.obj [("key", .str "value")])
    ∧ process_buffer "data: plain text\r\n\r\n" = some (.str "plain text")
    ∧ _parse_sse "data: line 1\ndata: line 2\ndata: line 3"
        = some "line 1\nline 2\nline 3"
    ∧ _parse_sse "event: test\nid: 123" = none
    ∧ process_buffer "event: test\nid: 123\n\n" = none :=
  ⟨rfl, rfl, rfl, rfl, rfl⟩

/-- Helper: running a reader to natural exhaustion always ends closed,
with the buffer drained and exactly one more release than it started
with. -/
theorem run_reader_aux :
    ∀ (chunks : List String) (buf : List Char) (st : StreamState) (n : Nat),
      (run_reader chunks ⟨buf, st, n⟩).2 = ⟨[], .closed, n + 1⟩ := by
  intro chunks
  induction chunks with
  | nil => intro buf st n; rfl
  | cons c rest ih => intro buf st n; exact ih _ st n

/-- Claim C9: a stream reader consumed to natural exhaustion releases
the scoped transport resource exactly once (and a further close does
not release it again), and aborting iteration early by closing the
reader also releases it exactly once (idempotently). -/
theorem stream_release_exactly_once :
    ∀ chunks : List String,
      ((run_reader chunks { buffer := [], state := .opened, releases := 0 }).2.releases = 1
        ∧ (run_reader chunks { buffer := [], state := .opened, releases := 0 }).2.state
            = .closed
        ∧ reader_close
              (run_reader chunks { buffer := [], state := .opened, releases := 0 }).2
            = (run_reader chunks { buffer := [], state := .opened, releases := 0 }).2)
      ∧ (reader_close { buffer := [], state := .opened, releases := 0 : Reader }).releases
          = 1
      ∧ (reader_close (reader_close
            { buffer := [], state := .opened, releases := 0 : Reader })).releases = 1 := by
  intro chunks
  have h := run_reader_aux chunks [] .opened 0
  exact ⟨⟨by rw [h], by rw [h], by rw [h]; rfl⟩, rfl, rfl⟩

/-- Claim C10: an SSE message consisting of the single line `data:`
(empty payload) is not skipped — it parses to the empty string and
decodes to an event carrying the empty string — unlike a message with
no `data:` line, which yields no event. -/
theorem sse_empty_data_line_not_skipped :
    _parse_sse "data:" = some ""
    ∧ sse_event_value "data:" = some (.str "")
    ∧ _parse_sse "event: test\nid: 123" = none
    ∧ sse_event_value "event: test\nid: 123" = none :=
  ⟨rfl, rfl, rfl, rfl⟩

/-- Claim C8 (witness): the style `"invalid"` of `test_invalid_style`
produces exactly the error message of the test. -/
theorem unknown_style_error_witness :
    encode_query_param [] "name" (.str "value") "invalid" true =
      .error "query param style \x27invalid\x27 not implemented" :=
  unknown_style_error [] "name" (.str "value") true "invalid"
    (by decide) (by decide) (by decide) (by decide)

end MakeApiRequest
